import Mathlib

/-!
Shallow embedding of the auth/email two-service identity platform
(auth-service + email-service sharing one relational store).

Time is modelled as an abstract instant counter in minutes (`Nat`).
User ids are opaque `Nat` values (UUIDs in the source).
Access/refresh JWTs are modelled as their signed claim set: a record of the
payload placed by `jwt.sign` (userId, role, tokenVersion, iat, exp) together
with the secret that signed it; two JWT strings are equal exactly when all of
these coincide, which mirrors deterministic HS256 signing.
-/

namespace AuthMS

/-- User roles, from utils/customTypes.ts. -/
inductive Role
  | user
  | admin
deriving DecidableEq, Repr

/-- Stored password hashes: a bcrypt hash of a known password, the bcrypt hash
of a random hex string (magic-link passwordless signup), or the sentinel
string written by GDPR anonymization. -/
inductive Hash
  | bcrypt (pw : String)
  | bcryptRandom (nonce : Nat)
  | anonymized
deriving DecidableEq, Repr

/-- bcrypt.compare: succeeds exactly when the candidate password matches the
one that was hashed. -/
def bcryptCompare (pw : String) (h : Hash) : Bool :=
  match h with
  | Hash.bcrypt p => decide (pw = p)
  | Hash.bcryptRandom _ => false
  | Hash.anonymized => false

/-- Which secret signed a JWT (JWT_ACCESS_SECRET, JWT_REFRESH_SECRET,
EMAIL_TOKEN_SECRET) or an unknown key (a forged or corrupted token). -/
inductive Secret
  | access
  | refresh
  | emailKey
  | unknownKey
deriving DecidableEq, Repr

/-- A signed access/refresh JWT: the claims written by signAccessToken /
signRefreshToken (utils/jwt.ts) plus the iat/exp timestamps added by
jwt.sign via expiresIn, plus the signing secret. -/
structure Jwt where
  userId : Nat
  role : Role
  tokenVersion : Nat
  iat : Nat
  exp : Nat
  secret : Secret
deriving DecidableEq, Repr

/-- Decoded token payload (utils/customTypes.ts TokenPayload). -/
structure TokenPayload where
  userId : Nat
  role : Role
  tokenVersion : Nat
deriving DecidableEq, Repr

/-- ACCESS_TOKEN_EXPIRES default 15m, in minutes. -/
def accessExpiresMinutes : Nat := 15

/-- REFRESH_TOKEN_EXPIRES default 7d, in minutes. -/
def refreshExpiresMinutes : Nat := 7 * 24 * 60

/-- LOCK_DURATION_MINUTES from authServices.ts. -/
def lockDurationMinutes : Nat := 30

/-- RESET_TOKEN_EXPIRY default 1h, in minutes. -/
def resetTokenExpiryMinutes : Nat := 60

/-- VERIFICATION_TOKEN_EXPIRY default 24h, in minutes. -/
def verificationTokenExpiryMinutes : Nat := 24 * 60

/-- MAGIC_LINK_TOKEN_EXPIRY default 15m, in minutes. -/
def magicLinkTokenExpiryMinutes : Nat := 15

/-- utils/jwt.ts signAccessToken: jwt.sign of the payload with the access
secret and expiresIn = ACCESS_EXPIRES. -/
def signAccessToken (userId : Nat) (role : Role) (tokenVersion : Nat) (now : Nat) : Jwt :=
  { userId := userId, role := role, tokenVersion := tokenVersion,
    iat := now, exp := now + accessExpiresMinutes, secret := Secret.access }

/-- utils/jwt.ts signRefreshToken: jwt.sign of the payload with the refresh
secret and expiresIn = REFRESH_EXPIRES. -/
def signRefreshToken (userId : Nat) (role : Role) (tokenVersion : Nat) (now : Nat) : Jwt :=
  { userId := userId, role := role, tokenVersion := tokenVersion,
    iat := now, exp := now + refreshExpiresMinutes, secret := Secret.refresh }

/-- Errors thrown by token verification in utils/jwt.ts. -/
inductive JwtError
  | invalidOrExpired
deriving DecidableEq, Repr

/-- utils/jwt.ts verifyAccessToken: jwt.verify with the access secret, which
checks the signature and the exp claim and returns the decoded payload. -/
def verifyAccessToken (t : Jwt) (now : Nat) : Except JwtError TokenPayload :=
  if t.secret = Secret.access ∧ now < t.exp then
    Except.ok { userId := t.userId, role := t.role, tokenVersion := t.tokenVersion }
  else
    Except.error JwtError.invalidOrExpired

/-- 401 errors produced by the authenticate middleware. -/
inductive AuthError
  | invalidOrExpiredToken
deriving DecidableEq, Repr

/-- authMiddleware.ts authenticate, token-verification branch (lines 38-52):
verifyAccessToken on the extracted bearer token; on success the decoded
payload is attached as req.user and control passes on, on failure a 401
invalid-or-expired response is returned.  The middleware performs no
database access. -/
def authenticate (token : Jwt) (now : Nat) : Except AuthError TokenPayload :=
  match verifyAccessToken token now with
  | Except.ok decoded => Except.ok decoded
  | Except.error _ => Except.error AuthError.invalidOrExpiredToken

/-- User row (prisma User model). -/
structure User where
  id : Nat
  email : String
  password : Hash
  role : Role
  emailVerified : Bool
  failedLoginAttempts : Nat
  accountLockedUntil : Option Nat
  tokenVersion : Nat
  lastLoginAt : Option Nat
  lastLoginIp : Option String
deriving DecidableEq, Repr

/-- RefreshToken row. -/
structure RefreshTokenRow where
  userId : Nat
  token : Jwt
  expiresAt : Nat
deriving DecidableEq, Repr

/-- Session row (device/browser metadata other than the IP is omitted; no
claim mentions it). -/
structure Session where
  id : Nat
  userId : Nat
  refreshToken : Jwt
  ipAddress : String
  isActive : Bool
  lastActivityAt : Nat
  expiresAt : Nat
deriving DecidableEq, Repr

/-- MagicLinkToken row. -/
structure MagicLinkTokenRow where
  token : String
  userId : Nat
  expiresAt : Nat
  used : Bool
  usedAt : Option Nat
  ipAddress : Option String
deriving DecidableEq, Repr

/-- PasswordResetToken row. -/
structure PasswordResetTokenRow where
  token : String
  userId : Nat
  expiresAt : Nat
  used : Bool
deriving DecidableEq, Repr

/-- VerificationToken row. -/
structure VerificationTokenRow where
  token : String
  userId : Nat
  expiresAt : Nat
deriving DecidableEq, Repr

/-- AuditLog actions used by the modelled operations. -/
inductive AuditAction
  | userRegister
  | userLogin
  | loginFailed
  | accountLocked
  | accountUnlocked
  | tokenRefreshed
  | roleChanged
  | userLogout
  | magicLinkRequested
  | magicLinkSent
  | magicLinkLogin
  | magicLinkFailed
  | passwordResetRequested
  | passwordResetCompleted
  | emailUpdated
  | emailUpdateFailed
  | userDataAnonymized
deriving DecidableEq, Repr

/-- AuditLog row (the metadata object is modelled as a key/value list; only
the keys the claims mention are ever written). -/
structure AuditRow where
  userId : Option Nat
  action : AuditAction
  success : Bool
  meta : List (String × String)
deriving DecidableEq, Repr

/-- The shared relational store of the two services, plus freshness counters
standing for UUID generation and crypto.randomBytes. -/
structure DB where
  users : List User
  refreshTokens : List RefreshTokenRow
  sessions : List Session
  magicLinkTokens : List MagicLinkTokenRow
  passwordResetTokens : List PasswordResetTokenRow
  verificationTokens : List VerificationTokenRow
  auditLogs : List AuditRow
  nextUserId : Nat
  nextSessionId : Nat
  nextNonce : Nat
deriving DecidableEq, Repr

/-- prisma.user.findUnique by id. -/
def findUserById (db : DB) (id : Nat) : Option User :=
  db.users.find? (fun u => decide (u.id = id))

/-- prisma.user.findUnique by email. -/
def findUserByEmail (db : DB) (email : String) : Option User :=
  db.users.find? (fun u => decide (u.email = email))

/-- tokenService.ts findRefreshToken: prisma.refreshToken.findUnique by token. -/
def findRefreshToken (db : DB) (t : Jwt) : Option RefreshTokenRow :=
  db.refreshTokens.find? (fun r => decide (r.token = t))

/-- Map a function over the user with the given id (prisma.user.update). -/
def updateUsers (l : List User) (id : Nat) (f : User → User) : List User :=
  l.map (fun u => if u.id = id then f u else u)

/-- prisma.user.update where id. -/
def updateUserById (db : DB) (id : Nat) (f : User → User) : DB :=
  { db with users := updateUsers db.users id f }

/-- auditService.ts createAuditLog: prisma.auditLog.create. -/
def appendAudit (db : DB) (row : AuditRow) : DB :=
  { db with auditLogs := db.auditLogs ++ [row] }

/-- A plain audit row with no metadata. -/
def mkAudit (userId : Option Nat) (action : AuditAction) : AuditRow :=
  { userId := userId, action := action, success := true, meta := [] }

/-- A failure audit row with no metadata. -/
def mkAuditFail (userId : Option Nat) (action : AuditAction) : AuditRow :=
  { userId := userId, action := action, success := false, meta := [] }

/-- tokenService.ts saveRefreshToken: prisma.refreshToken.create. -/
def saveRefreshToken (db : DB) (userId : Nat) (token : Jwt) (expiresAt : Nat) : DB :=
  { db with refreshTokens := db.refreshTokens ++ [{ userId := userId, token := token, expiresAt := expiresAt }] }

/-- tokenService.ts deleteRefreshToken: prisma.refreshToken.deleteMany where token. -/
def deleteRefreshToken (db : DB) (t : Jwt) : DB :=
  { db with refreshTokens := db.refreshTokens.filter (fun r => !decide (r.token = t)) }

/-- sessionService.ts createSession: creates an isActive session row with
lastActivityAt = now (user-agent parsing is presentation-only). -/
def createSession (db : DB) (userId : Nat) (refreshToken : Jwt) (expiresAt : Nat) (now : Nat) (ip : String) : DB :=
  let row : Session :=
    { id := db.nextSessionId, userId := userId, refreshToken := refreshToken,
      ipAddress := ip, isActive := true, lastActivityAt := now, expiresAt := expiresAt }
  { db with sessions := db.sessions ++ [row], nextSessionId := db.nextSessionId + 1 }

/-- sessionService.ts deactivateSession: prisma.session.updateMany where
refreshToken, set isActive = false. -/
def deactivateSession (db : DB) (t : Jwt) : DB :=
  { db with sessions := db.sessions.map (fun s => if s.refreshToken = t then { s with isActive := false } else s) }

/-- sessionService.ts updateSessionActivity: prisma.session.update where
refreshToken, set lastActivityAt = now (errors are swallowed, so a missing
session is a no-op). -/
def updateSessionActivity (db : DB) (t : Jwt) (now : Nat) : DB :=
  { db with sessions := db.sessions.map (fun s => if s.refreshToken = t then { s with lastActivityAt := now } else s) }

/-- The active sessions of a user: isActive = true (sessionService.ts uses
the isActive flag as the unit of session liveness). -/
def activeSessionsFor (db : DB) (userId : Nat) : List Session :=
  db.sessions.filter (fun s => decide (s.userId = userId) && s.isActive)

/-- The stored tokenVersion of a user, when the user exists. -/
def tokenVersionOf (db : DB) (uid : Nat) : Option Nat :=
  (findUserById db uid).map (fun u => u.tokenVersion)

/-- Errors thrown by registerUser (unique violation on User.email). -/
inductive RegisterError
  | emailTaken
deriving DecidableEq, Repr

/-- authServices.ts registerUser: bcrypt.hash the password, create the user
with emailVerified = false and tokenVersion = 0, log USER_REGISTER; the
verification-email dispatch is fire-and-forget and does not roll back the
registration. -/
def registerUser (db : DB) (email pw : String) (role : Role) : Except RegisterError User × DB :=
  if (findUserByEmail db email).isSome then
    (Except.error RegisterError.emailTaken, db)
  else
    let newUser : User :=
      { id := db.nextUserId, email := email, password := Hash.bcrypt pw, role := role,
        emailVerified := false, failedLoginAttempts := 0, accountLockedUntil := none,
        tokenVersion := 0, lastLoginAt := none, lastLoginIp := none }
    let db1 : DB := { db with users := db.users ++ [newUser], nextUserId := db.nextUserId + 1 }
    let db2 := appendAudit db1 (mkAudit (some newUser.id) AuditAction.userRegister)
    (Except.ok newUser, db2)

/-- Errors thrown by loginUser. -/
inductive LoginError
  | userNotFound
  | emailNotVerified
  | accountLocked (lockedUntil : Nat)
  | invalidPassword
deriving DecidableEq, Repr

/-- Successful login payload. -/
structure LoginOk where
  accessToken : Jwt
  refreshToken : Jwt
deriving DecidableEq, Repr

/-- Result of loginUser: the outcome, the resulting store (failure paths also
mutate the store), and whether bcrypt.compare was invoked during the call. -/
structure LoginResult where
  outcome : Except LoginError LoginOk
  db : DB
  bcryptChecked : Bool
deriving Repr

/-- The tail of loginUser after the lock check (password comparison onward).
The user argument is the record fetched at the start of the call: the source
keeps reading it after the unlock update, so stale fields are preserved
faithfully. -/
def loginPasswordPhase (db : DB) (user : User) (pw : String) (now : Nat) (ip : String) : LoginResult :=
  if bcryptCompare pw user.password then
    let db1 := updateUserById db user.id (fun u =>
      { u with failedLoginAttempts := 0, accountLockedUntil := none,
               lastLoginAt := some now, lastLoginIp := some ip })
    let db2 := appendAudit db1 (mkAudit (some user.id) AuditAction.userLogin)
    let accessToken := signAccessToken user.id user.role user.tokenVersion now
    let refreshToken := signRefreshToken user.id user.role user.tokenVersion now
    let expiresAt := now + refreshExpiresMinutes
    let db3 := saveRefreshToken db2 user.id refreshToken expiresAt
    let db4 := createSession db3 user.id refreshToken expiresAt now ip
    { outcome := Except.ok { accessToken := accessToken, refreshToken := refreshToken },
      db := db4, bcryptChecked := true }
  else
    let newAttempts := user.failedLoginAttempts + 1
    if 5 ≤ newAttempts then
      let lockUntil := now + lockDurationMinutes
      let db1 := updateUserById db user.id (fun u =>
        { u with failedLoginAttempts := newAttempts, accountLockedUntil := some lockUntil })
      let db2 := appendAudit db1 (mkAudit (some user.id) AuditAction.accountLocked)
      { outcome := Except.error (LoginError.accountLocked lockUntil), db := db2, bcryptChecked := true }
    else
      let db1 := updateUserById db user.id (fun u => { u with failedLoginAttempts := newAttempts })
      let db2 := appendAudit db1 (mkAuditFail (some user.id) AuditAction.loginFailed)
      { outcome := Except.error LoginError.invalidPassword, db := db2, bcryptChecked := true }

/-- authServices.ts loginUser: find the user, require a verified email, apply
the account-lock state machine, compare bcrypt, and on success reset the
counters, mint tokens carrying (role, tokenVersion), persist the
RefreshToken row and create a Session. -/
def loginUser (db : DB) (email pw : String) (now : Nat) (ip : String) : LoginResult :=
  match findUserByEmail db email with
  | none => { outcome := Except.error LoginError.userNotFound, db := db, bcryptChecked := false }
  | some user =>
    if user.emailVerified = false then
      { outcome := Except.error LoginError.emailNotVerified,
        db := appendAudit db (mkAuditFail (some user.id) AuditAction.loginFailed),
        bcryptChecked := false }
    else
      match user.accountLockedUntil with
      | some lockedUntil =>
        if now < lockedUntil then
          { outcome := Except.error (LoginError.accountLocked lockedUntil),
            db := appendAudit db (mkAuditFail (some user.id) AuditAction.loginFailed),
            bcryptChecked := false }
        else
          let db1 := updateUserById db user.id (fun u =>
            { u with failedLoginAttempts := 0, accountLockedUntil := none })
          let db2 := appendAudit db1 (mkAudit (some user.id) AuditAction.accountUnlocked)
          loginPasswordPhase db2 user pw now ip
      | none => loginPasswordPhase db user pw now ip

/-- Errors thrown by rotateRefreshToken. -/
inductive RotateError
  | refreshNotFound
  | refreshExpired
  | userNotFound
deriving DecidableEq, Repr

/-- Successful refresh payload. -/
structure RotateOk where
  accessToken : Jwt
  refreshToken : Jwt
  expiresAt : Nat
  userId : Nat
deriving DecidableEq, Repr

/-- authServices.ts rotateRefreshToken: look up the RefreshToken row, reject
an absent or expired row, load the user for the current role and
tokenVersion, delete the old row, deactivate the old session, log the
refresh, mint and save the new tokens, and touch the old session's activity
timestamp. -/
def rotateRefreshToken (db : DB) (oldToken : Jwt) (now : Nat) : Except RotateError RotateOk × DB :=
  match findRefreshToken db oldToken with
  | none => (Except.error RotateError.refreshNotFound, db)
  | some found =>
    if found.expiresAt < now then
      (Except.error RotateError.refreshExpired, deactivateSession (deleteRefreshToken db oldToken) oldToken)
    else
      match findUserById db found.userId with
      | none => (Except.error RotateError.userNotFound, db)
      | some user =>
        let db1 := deleteRefreshToken db oldToken
        let db2 := deactivateSession db1 oldToken
        let db3 := appendAudit db2 (mkAudit (some found.userId) AuditAction.tokenRefreshed)
        let newAccessToken := signAccessToken found.userId user.role user.tokenVersion now
        let newRefreshToken := signRefreshToken found.userId user.role user.tokenVersion now
        let expiresAt := now + refreshExpiresMinutes
        let db4 := saveRefreshToken db3 found.userId newRefreshToken expiresAt
        let db5 := updateSessionActivity db4 oldToken now
        (Except.ok { accessToken := newAccessToken, refreshToken := newRefreshToken,
                     expiresAt := expiresAt, userId := found.userId }, db5)

/-- authServices.ts logoutUser with a token: delete the RefreshToken row and
deactivate the matching session (idempotent); with no token: no-op on this
path. -/
def logoutUser (db : DB) (token : Option Jwt) : DB :=
  match token with
  | some t => deactivateSession (deleteRefreshToken db t) t
  | none => db

/-- authServices.ts updateUserRole: record the old role, update to the new
role, log ROLE_CHANGED. -/
def updateUserRole (db : DB) (userId : Nat) (newRole : Role) : DB :=
  match findUserById db userId with
  | none => db
  | some _ =>
    let db1 := updateUserById db userId (fun u => { u with role := newRole })
    appendAudit db1 (mkAudit (some userId) AuditAction.roleChanged)

/-- tokenGenerator.ts generatePasswordResetToken: a JWT over the email
secret, determined by the userId and the signing instant. -/
def generatePasswordResetToken (userId : Nat) (now : Nat) : String :=
  "password-reset:" ++ toString userId ++ ":" ++ toString now

/-- tokenGenerator.ts generateMagicLinkToken. -/
def generateMagicLinkToken (userId : Nat) (now : Nat) : String :=
  "magic-link:" ++ toString userId ++ ":" ++ toString now

/-- tokenGenerator.ts generateVerificationToken. -/
def generateVerificationToken (userId : Nat) (now : Nat) : String :=
  "verification:" ++ toString userId ++ ":" ++ toString now

/-- One prisma store call made by the email-service resetPassword flow; a
prisma transaction block would appear as a single tx element wrapping its
member operations.  The source performs each call as its own implicit
transaction (prisma.$transaction is never used). -/
inductive StoreOp
  | findResetToken (token : String)
  | deleteResetToken (token : String)
  | updateUserRow (userId : Nat)
  | markResetTokenUsed (token : String)
  | deleteUserRefreshTokens (userId : Nat)
  | deactivateUserSessions (userId : Nat)
  | tx (ops : List StoreOp)
deriving Repr

/-- Whether a store call writes. -/
def StoreOp.isMutation : StoreOp → Bool
  | StoreOp.findResetToken _ => false
  | StoreOp.tx _ => false
  | _ => true

/-- Whether a store call is a transaction block. -/
def StoreOp.isTx : StoreOp → Bool
  | StoreOp.tx _ => true
  | _ => false

/-- Modelled from the spec wording: the state transition happens within a
single transaction, i.e. the emitted store trace has exactly one transaction
block and no top-level mutation outside it. -/
def specSingleTransaction (trace : List StoreOp) : Bool :=
  (trace.filter StoreOp.isMutation).isEmpty && ((trace.filter StoreOp.isTx).length == 1)

/-- Errors thrown by resetPassword. -/
inductive ResetError
  | invalidToken
  | tokenExpired
  | tokenUsed
deriving DecidableEq, Repr

/-- Result of resetPassword: outcome, resulting store, and the sequence of
store calls the operation performed. -/
structure ResetResult where
  outcome : Except ResetError Unit
  db : DB
  trace : List StoreOp
deriving Repr

/-- emailService.ts resetPassword: consume the reset token and, in separate
sequential store calls, write the new bcrypt hash together with
failedLoginAttempts = 0, accountLockedUntil = null and tokenVersion + 1,
mark the token used, delete all of the user's refresh tokens, deactivate all
of the user's sessions, then fire-and-forget the PASSWORD_RESET_COMPLETED
audit call to the auth service. -/
def resetPassword (db : DB) (token : String) (newPassword : String) (now : Nat) : ResetResult :=
  match db.passwordResetTokens.find? (fun r => decide (r.token = token)) with
  | none =>
    { outcome := Except.error ResetError.invalidToken, db := db,
      trace := [StoreOp.findResetToken token] }
  | some resetToken =>
    if resetToken.expiresAt < now then
      { outcome := Except.error ResetError.tokenExpired,
        db := { db with passwordResetTokens := db.passwordResetTokens.filter (fun r => !decide (r.token = token)) },
        trace := [StoreOp.findResetToken token, StoreOp.deleteResetToken token] }
    else if resetToken.used then
      { outcome := Except.error ResetError.tokenUsed, db := db,
        trace := [StoreOp.findResetToken token] }
    else
      let hashed := Hash.bcrypt newPassword
      let db1 := updateUserById db resetToken.userId (fun u =>
        { u with password := hashed, failedLoginAttempts := 0,
                 accountLockedUntil := none, tokenVersion := u.tokenVersion + 1 })
      let markedTokens := db1.passwordResetTokens.map
        (fun r => if r.token = token then { r with used := true } else r)
      let db2 : DB := { db1 with passwordResetTokens := markedTokens }
      let keptRefresh := db2.refreshTokens.filter (fun r => !decide (r.userId = resetToken.userId))
      let db3 : DB := { db2 with refreshTokens := keptRefresh }
      let deactivated := db3.sessions.map
        (fun s => if s.userId = resetToken.userId then { s with isActive := false } else s)
      let db4 : DB := { db3 with sessions := deactivated }
      let db5 := appendAudit db4 (mkAudit (some resetToken.userId) AuditAction.passwordResetCompleted)
      { outcome := Except.ok (), db := db5,
        trace := [StoreOp.findResetToken token, StoreOp.updateUserRow resetToken.userId,
                  StoreOp.markResetTokenUsed token, StoreOp.deleteUserRefreshTokens resetToken.userId,
                  StoreOp.deactivateUserSessions resetToken.userId] }

/-- Mail dispatch failures (transporter.sendMail throwing). -/
inductive MailError
  | dispatchFailed
deriving DecidableEq, Repr

/-- The uniform response of the password-reset request path. -/
def resetRequestMsg : String := "if email exists, password reset link has been sent"

/-- emailService.ts sendPasswordResetEmail: for an unknown address return the
generic message unchanged; otherwise rotate the reset token (delete prior
rows, create a fresh one), fire-and-forget the PASSWORD_RESET_REQUESTED
audit call, dispatch the mail, and return the same generic message. -/
def sendPasswordResetEmail (db : DB) (email : String) (now : Nat) (mailOk : Bool) : Except MailError String × DB :=
  match findUserByEmail db email with
  | none => (Except.ok resetRequestMsg, db)
  | some user =>
    let token := generatePasswordResetToken user.id now
    let keptResetRows := db.passwordResetTokens.filter (fun r => !decide (r.userId = user.id))
    let db1 : DB := { db with passwordResetTokens := keptResetRows }
    let newRow : PasswordResetTokenRow :=
      { token := token, userId := user.id, expiresAt := now + resetTokenExpiryMinutes, used := false }
    let db2 : DB := { db1 with passwordResetTokens := db1.passwordResetTokens ++ [newRow] }
    let db3 := appendAudit db2 (mkAudit (some user.id) AuditAction.passwordResetRequested)
    if mailOk then (Except.ok resetRequestMsg, db3)
    else (Except.error MailError.dispatchFailed, db3)

/-- emailService.ts sendMagicLinkEmail: create the MagicLinkToken row with the
request context, then dispatch the mail (a dispatch failure leaves the row in
place and surfaces as a non-ok response to the auth service). -/
def sendMagicLinkEmail (db : DB) (userId : Nat) (now : Nat) (ip : String) (mailOk : Bool) : Except MailError Unit × DB :=
  let row : MagicLinkTokenRow :=
    { token := generateMagicLinkToken userId now, userId := userId,
      expiresAt := now + magicLinkTokenExpiryMinutes, used := false, usedAt := none,
      ipAddress := some ip }
  let db1 : DB := { db with magicLinkTokens := db.magicLinkTokens ++ [row] }
  if mailOk then (Except.ok (), db1) else (Except.error MailError.dispatchFailed, db1)

/-- Errors thrown by requestMagicLink. -/
inductive MagicRequestError
  | accountLockedTryLater (lockedUntil : Nat)
  | sendFailed
deriving DecidableEq, Repr

/-- The response for a magic-link request that silently created the account. -/
def magicMsgNew : String := "account created! a magic login link has been sent to your email"

/-- The response for a magic-link request for an existing account. -/
def magicMsgExisting : String := "a magic login link has been sent to your email"

/-- The tail of requestMagicLink after the lock check: MAGIC_LINK_REQUESTED
audit, deletion of unused magic tokens, the email-service call, the
MAGIC_LINK_SENT audit and the isNewUser-dependent message. -/
def requestMagicLinkAfterLock (db : DB) (userId : Nat) (isNewUser : Bool)
    (now : Nat) (ip : String) (mailOk : Bool) : Except MagicRequestError String × DB :=
  let db2 := appendAudit db (mkAudit (some userId) AuditAction.magicLinkRequested)
  let keptMagic := db2.magicLinkTokens.filter (fun r => !(decide (r.userId = userId) && !r.used))
  let db3 : DB := { db2 with magicLinkTokens := keptMagic }
  let sent := sendMagicLinkEmail db3 userId now ip mailOk
  match sent.1 with
  | Except.error _ => (Except.error MagicRequestError.sendFailed, sent.2)
  | Except.ok _ =>
    let db5 := appendAudit sent.2 (mkAudit (some userId) AuditAction.magicLinkSent)
    (Except.ok (if isNewUser then magicMsgNew else magicMsgExisting), db5)

/-- The branch of requestMagicLink for an existing user: enforce the account
lock (auto-unlock on expiry), then run the shared tail with isNewUser =
false. -/
def requestMagicLinkExisting (db : DB) (user : User) (now : Nat) (ip : String) (mailOk : Bool) : Except MagicRequestError String × DB :=
  match user.accountLockedUntil with
  | some lockedUntil =>
    if now < lockedUntil then
      (Except.error (MagicRequestError.accountLockedTryLater lockedUntil), db)
    else
      let db1 := updateUserById db user.id (fun u =>
        { u with accountLockedUntil := none, failedLoginAttempts := 0 })
      requestMagicLinkAfterLock db1 user.id false now ip mailOk
  | none => requestMagicLinkAfterLock db user.id false now ip mailOk

/-- The branch of requestMagicLink for an unknown address: create the
passwordless account (random bcrypt hash, emailVerified = false, role USER,
tokenVersion defaulting to 0) with a USER_REGISTER audit row, then run the
shared tail with isNewUser = true.  The source then re-checks the account
lock, which a freshly created user (accountLockedUntil null) always
passes. -/
def requestMagicLinkNewUser (db : DB) (email : String) (now : Nat) (ip : String) (mailOk : Bool) : Except MagicRequestError String × DB :=
  let newUser : User :=
    { id := db.nextUserId, email := email, password := Hash.bcryptRandom db.nextNonce,
      role := Role.user, emailVerified := false, failedLoginAttempts := 0,
      accountLockedUntil := none, tokenVersion := 0, lastLoginAt := none, lastLoginIp := none }
  let dbIns : DB :=
    { db with users := db.users ++ [newUser], nextUserId := db.nextUserId + 1, nextNonce := db.nextNonce + 1 }
  let db0 := appendAudit dbIns (mkAudit (some newUser.id) AuditAction.userRegister)
  requestMagicLinkAfterLock db0 newUser.id true now ip mailOk

/-- magicLinkService.ts requestMagicLink: look the user up, silently create a
passwordless account for an unknown address, enforce the account lock,
delete unused magic tokens, call the email service to mint and dispatch the
link, and return the isNewUser-dependent message. -/
def requestMagicLink (db : DB) (email : String) (now : Nat) (ip : String) (mailOk : Bool) : Except MagicRequestError String × DB :=
  match findUserByEmail db email with
  | some user => requestMagicLinkExisting db user now ip mailOk
  | none => requestMagicLinkNewUser db email now ip mailOk

/-- Errors thrown by verifyMagicLinkAndLogin. -/
inductive MagicVerifyError
  | invalidLink
  | alreadyUsed
  | linkExpired
  | accountLockedTryLater (lockedUntil : Nat)
deriving DecidableEq, Repr

/-- Successful magic-link login payload. -/
structure MagicLoginOk where
  accessToken : Jwt
  refreshToken : Jwt
  expiresAt : Nat
deriving DecidableEq, Repr

/-- The tail of verifyMagicLinkAndLogin once every check has passed: mark the
token used with the request context, update the user (last login, counter
reset, lock clear, emailVerified = true), mint tokens with the current
tokenVersion, persist the RefreshToken row, create a Session, and log
MAGIC_LINK_LOGIN. -/
def magicLinkLoginApply (db : DB) (token : String) (user : User) (now : Nat) (ip : String) : Except MagicVerifyError MagicLoginOk × DB :=
  let markedMagic := db.magicLinkTokens.map (fun r =>
    if r.token = token then { r with used := true, usedAt := some now, ipAddress := some ip } else r)
  let db1 : DB := { db with magicLinkTokens := markedMagic }
  let db2 := updateUserById db1 user.id (fun u =>
    { u with lastLoginAt := some now, lastLoginIp := some ip,
             failedLoginAttempts := 0, accountLockedUntil := none, emailVerified := true })
  let accessToken := signAccessToken user.id user.role user.tokenVersion now
  let refreshToken := signRefreshToken user.id user.role user.tokenVersion now
  let expiresAt := now + refreshExpiresMinutes
  let db3 := saveRefreshToken db2 user.id refreshToken expiresAt
  let db4 := createSession db3 user.id refreshToken expiresAt now ip
  let db5 := appendAudit db4 (mkAudit (some user.id) AuditAction.magicLinkLogin)
  (Except.ok { accessToken := accessToken, refreshToken := refreshToken, expiresAt := expiresAt }, db5)

/-- magicLinkService.ts verifyMagicLinkAndLogin: find the token row, reject an
unknown, already-used or expired token (deleting the row on expiry), refuse
a currently locked account with a MAGIC_LINK_FAILED audit row and no other
mutation, and otherwise consume the token and log the user in. -/
def verifyMagicLinkAndLogin (db : DB) (token : String) (now : Nat) (ip : String) : Except MagicVerifyError MagicLoginOk × DB :=
  match db.magicLinkTokens.find? (fun r => decide (r.token = token)) with
  | none => (Except.error MagicVerifyError.invalidLink, db)
  | some row =>
    if row.used then (Except.error MagicVerifyError.alreadyUsed, db)
    else if row.expiresAt < now then
      (Except.error MagicVerifyError.linkExpired,
       { db with magicLinkTokens := db.magicLinkTokens.filter (fun r => !decide (r.token = token)) })
    else
      match findUserById db row.userId with
      | none => (Except.error MagicVerifyError.invalidLink, db)
      | some user =>
        match user.accountLockedUntil with
        | some lockedUntil =>
          if now < lockedUntil then
            (Except.error (MagicVerifyError.accountLockedTryLater lockedUntil),
             appendAudit db (mkAuditFail (some user.id) AuditAction.magicLinkFailed))
          else
            magicLinkLoginApply db token user now ip
        | none => magicLinkLoginApply db token user now ip

/-- Errors thrown by updateUserEmail. -/
inductive UpdateEmailError
  | emailInUse
  | userNotFound
  | sendVerificationFailed
deriving DecidableEq, Repr

/-- The success response of updateUserEmail. -/
def updateEmailMsg : String := "email updated successfully. please verify your new email address."

/-- gdprService.ts updateUserEmail: uniqueness-check the new address, delete
the old verification tokens, apply the update (email replaced,
emailVerified = false), write the EMAIL_UPDATED audit row with the old and
new addresses in its metadata, and only then call the email service; a
dispatch failure is rethrown while the database change and the audit row
remain in place. -/
def updateUserEmail (db : DB) (userId : Nat) (newEmail : String) (now : Nat) (sendOk : Bool) : Except UpdateEmailError String × DB :=
  let conflict : Bool :=
    match findUserByEmail db newEmail with
    | some existing => decide (existing.id ≠ userId)
    | none => false
  if conflict then (Except.error UpdateEmailError.emailInUse, db)
  else
    match findUserById db userId with
    | none => (Except.error UpdateEmailError.userNotFound, db)
    | some currentUser =>
      let keptVerif := db.verificationTokens.filter (fun r => !decide (r.userId = userId))
      let db1 : DB := { db with verificationTokens := keptVerif }
      let db2 := updateUserById db1 userId (fun u =>
        { u with email := newEmail, emailVerified := false })
      let auditRow : AuditRow :=
        { userId := some userId, action := AuditAction.emailUpdated, success := true,
          meta := [("oldEmail", currentUser.email), ("newEmail", newEmail)] }
      let db3 := appendAudit db2 auditRow
      if sendOk then
        let newVerifRow : VerificationTokenRow :=
          { token := generateVerificationToken userId now, userId := userId,
            expiresAt := now + verificationTokenExpiryMinutes }
        let db4 : DB := { db3 with verificationTokens := db3.verificationTokens ++ [newVerifRow] }
        (Except.ok updateEmailMsg, db4)
      else
        (Except.error UpdateEmailError.sendVerificationFailed, db3)

/-- gdprService.ts anonymizeUserData: a final USER_DATA_ANONYMIZED row, audit
scrubbing, deletion of all sessions, refresh tokens and out-of-band tokens,
and the sentinel rewrite of the user row (tokenVersion is untouched). -/
def anonymizeUserData (db : DB) (userId : Nat) : DB :=
  match findUserById db userId with
  | none => db
  | some _ =>
    let db1 := appendAudit db (mkAudit (some userId) AuditAction.userDataAnonymized)
    let scrubbed := db1.auditLogs.map (fun a =>
      if a.userId = some userId then { a with meta := [("anonymized", "true")] } else a)
    let db2 : DB := { db1 with auditLogs := scrubbed }
    let db3 : DB := { db2 with
      sessions := db2.sessions.filter (fun s => !decide (s.userId = userId)),
      refreshTokens := db2.refreshTokens.filter (fun r => !decide (r.userId = userId)),
      verificationTokens := db2.verificationTokens.filter (fun r => !decide (r.userId = userId)),
      passwordResetTokens := db2.passwordResetTokens.filter (fun r => !decide (r.userId = userId)),
      magicLinkTokens := db2.magicLinkTokens.filter (fun r => !decide (r.userId = userId)) }
    updateUserById db3 userId (fun u =>
      { u with email := "anonymized_" ++ toString userId ++ "@deleted.local",
               password := Hash.anonymized, emailVerified := false,
               lastLoginIp := none, lastLoginAt := none,
               failedLoginAttempts := 0, accountLockedUntil := none })

/-- The operations of the system over which the state-evolution claims range
(deletion endpoints are admin-only and are not in the set the monotonicity
claim enumerates). -/
inductive Op
  | register (email pw : String) (role : Role)
  | login (email pw : String) (now : Nat) (ip : String)
  | refresh (token : Jwt) (now : Nat)
  | logout (token : Option Jwt)
  | changeRole (userId : Nat) (newRole : Role)
  | resetRequest (email : String) (now : Nat) (mailOk : Bool)
  | resetApply (token : String) (newPassword : String) (now : Nat)
  | anonymize (userId : Nat)
  | updateEmail (userId : Nat) (newEmail : String) (now : Nat) (sendOk : Bool)
  | magicRequest (email : String) (now : Nat) (ip : String) (mailOk : Bool)
  | magicRedeem (token : String) (now : Nat) (ip : String)

/-- The store reached after one operation. -/
def step (db : DB) (op : Op) : DB :=
  match op with
  | Op.register e pw r => (registerUser db e pw r).2
  | Op.login e pw n ip => (loginUser db e pw n ip).db
  | Op.refresh t n => (rotateRefreshToken db t n).2
  | Op.logout t => logoutUser db t
  | Op.changeRole uid r => updateUserRole db uid r
  | Op.resetRequest e n ok => (sendPasswordResetEmail db e n ok).2
  | Op.resetApply t npw n => (resetPassword db t npw n).db
  | Op.anonymize uid => anonymizeUserData db uid
  | Op.updateEmail uid e n ok => (updateUserEmail db uid e n ok).2
  | Op.magicRequest e n ip ok => (requestMagicLink db e n ip ok).2
  | Op.magicRedeem t n ip => (verifyMagicLinkAndLogin db t n ip).2

/-- The store reached after a sequence of operations. -/
def runOps (db : DB) (ops : List Op) : DB := ops.foldl step db

/-- Store evolution order: every user present before an operation is still
present afterwards and its tokenVersion has not decreased. -/
def VersionLe (db db' : DB) : Prop :=
  ∀ uid v, tokenVersionOf db uid = some v → ∃ v', tokenVersionOf db' uid = some v' ∧ v ≤ v'

/-- A verified sample user with a known bcrypt hash and tokenVersion 0. -/
def sampleUser : User :=
  { id := 1, email := "a@b", password := Hash.bcrypt "pw", role := Role.user,
    emailVerified := true, failedLoginAttempts := 0, accountLockedUntil := none,
    tokenVersion := 0, lastLoginAt := none, lastLoginIp := none }

/-- A store holding only the sample user. -/
def sampleDB : DB :=
  { users := [sampleUser], refreshTokens := [], sessions := [], magicLinkTokens := [],
    passwordResetTokens := [], verificationTokens := [], auditLogs := [],
    nextUserId := 2, nextSessionId := 10, nextNonce := 0 }

/-- An access token minted for the sample user at instant 0 under
tokenVersion 0. -/
def sampleAccessToken : Jwt := signAccessToken 1 Role.user 0 0

/-- A refresh token minted for the sample user at instant 0 under
tokenVersion 0. -/
def sampleRefreshToken : Jwt := signRefreshToken 1 Role.user 0 0

/-- The sample store with an unused password-reset token for the sample
user. -/
def sampleDBReset : DB :=
  { sampleDB with passwordResetTokens := [{ token := "rt", userId := 1, expiresAt := 100, used := false }] }

/-- A refresh JWT claiming tokenVersion 0 but signed with an unknown key: its
signature does not verify under the refresh secret. -/
def forgedRefreshToken : Jwt :=
  { userId := 1, role := Role.user, tokenVersion := 0, iat := 0,
    exp := refreshExpiresMinutes, secret := Secret.unknownKey }

/-- A store where the sample user has already advanced to tokenVersion 1 yet
the forged version-0 refresh JWT still has a live RefreshToken row. -/
def mismatchDB : DB :=
  { sampleDB with
    users := [{ sampleUser with tokenVersion := 1 }],
    refreshTokens := [{ userId := 1, token := forgedRefreshToken, expiresAt := 100 }] }

/-- The sample store right after a login at instant 0: the refresh row and
its active session exist. -/
def sessionDB : DB :=
  { sampleDB with
    refreshTokens := [{ userId := 1, token := sampleRefreshToken, expiresAt := refreshExpiresMinutes }],
    sessions := [{ id := 10, userId := 1, refreshToken := sampleRefreshToken, ipAddress := "ip",
                   isActive := true, lastActivityAt := 0, expiresAt := refreshExpiresMinutes }] }

/-- The sample store where the sample user is locked until instant 50 and
holds an unused magic-link token expiring at instant 100. -/
def lockedMagicDB : DB :=
  { sampleDB with
    users := [{ sampleUser with accountLockedUntil := some 50 }],
    magicLinkTokens := [{ token := "ml", userId := 1, expiresAt := 100, used := false,
                          usedAt := none, ipAddress := none }] }

/-- The user record registerUser creates for the sample inputs below. -/
def newSampleUser : User :=
  { id := 2, email := "c@d", password := Hash.bcrypt "pw", role := Role.user,
    emailVerified := false, failedLoginAttempts := 0, accountLockedUntil := none,
    tokenVersion := 0, lastLoginAt := none, lastLoginIp := none }

/-- The sample store with both an unused password-reset token and a live
refresh row for the sample user. -/
def sampleDBResetRefresh : DB :=
  { sampleDBReset with
    refreshTokens := [{ userId := 1, token := sampleRefreshToken, expiresAt := refreshExpiresMinutes }] }

/-! ## Helper lemmas -/

/-- find? over an endomap that preserves the predicate. -/
theorem find?_map_pred {α : Type} (l : List α) (g : α → α) (p : α → Bool)
    (h : ∀ a, p (g a) = p a) : (l.map g).find? p = (l.find? p).map g := by
  rw [List.find?_map]
  have hc : p ∘ g = p := funext h
  rw [hc]

/-- The update-one-user map preserves any predicate that only reads fields
the update function preserves. -/
theorem updateUsers_pred (id : Nat) (f : User → User) (p : User → Bool)
    (hp : ∀ u, p (f u) = p u) (a : User) :
    p (if a.id = id then f a else a) = p a := by
  by_cases h : a.id = id <;> simp [h, hp]

/-- Looking a user up by email after updateUserById, when the update
preserves emails. -/
theorem findUserByEmail_updateUserById (db : DB) (id : Nat) (f : User → User) (e : String)
    (hemail : ∀ u, (f u).email = u.email) :
    findUserByEmail (updateUserById db id f) e =
      (findUserByEmail db e).map (fun u => if u.id = id then f u else u) := by
  unfold findUserByEmail updateUserById updateUsers
  exact find?_map_pred _ _ _ (fun a => by by_cases h : a.id = id <;> simp [h, hemail])

/-- Looking a user up by id after updateUserById, when the update preserves
ids. -/
theorem findUserById_updateUserById (db : DB) (id : Nat) (f : User → User) (uid : Nat)
    (hid : ∀ u, (f u).id = u.id) :
    findUserById (updateUserById db id f) uid =
      (findUserById db uid).map (fun u => if u.id = id then f u else u) := by
  unfold findUserById updateUserById updateUsers
  exact find?_map_pred _ _ _ (fun a => by by_cases h : a.id = id <;> simp [h, hid])

/-- findUserById only reads the user table. -/
theorem findUserById_congr {d1 d2 : DB} (h : d1.users = d2.users) (uid : Nat) :
    findUserById d1 uid = findUserById d2 uid := by
  unfold findUserById
  rw [h]

/-- Looking the updated user up after updateUserById, when the update
preserves ids. -/
theorem findUserById_update_found {d : DB} {i : Nat} {f : User → User} {u : User}
    (hu : findUserById d i = some u) (hid : ∀ x, (f x).id = x.id) :
    findUserById (updateUserById d i f) i = some (f u) := by
  rw [findUserById_updateUserById d i f i hid, hu]
  have hu' : d.users.find? (fun x => decide (x.id = i)) = some u := hu
  have hp := List.find?_some hu'
  have hui : u.id = i := by simpa using hp
  simp [hui]

/-- VersionLe when the user table is unchanged. -/
theorem versionLe_of_users_eq {db db' : DB} (h : db'.users = db.users) : VersionLe db db' := by
  intro uid v hv
  refine ⟨v, ?_, le_refl v⟩
  unfold tokenVersionOf findUserById at hv ⊢
  rw [h]
  exact hv

/-- VersionLe is transitive. -/
theorem versionLe_trans {a b c : DB} (h1 : VersionLe a b) (h2 : VersionLe b c) : VersionLe a c := by
  intro uid v hv
  obtain ⟨v1, h1v, hle1⟩ := h1 uid v hv
  obtain ⟨v2, h2v, hle2⟩ := h2 uid v1 h1v
  exact ⟨v2, h2v, le_trans hle1 hle2⟩

/-- VersionLe for a single-user update that preserves ids and does not
decrease the tokenVersion. -/
theorem versionLe_updateUsers {d e : DB} (i : Nat) (f : User → User)
    (husers : e.users = updateUsers d.users i f)
    (hid : ∀ u, (f u).id = u.id) (hv : ∀ u, u.tokenVersion ≤ (f u).tokenVersion) :
    VersionLe d e := by
  intro uid v hfind
  unfold tokenVersionOf findUserById at hfind ⊢
  rw [husers]
  unfold updateUsers
  rw [find?_map_pred _ _ _ (fun a => by by_cases h : a.id = i <;> simp [h, hid])]
  obtain ⟨u0, hu0, hv0⟩ := Option.map_eq_some'.mp hfind
  refine ⟨(if u0.id = i then f u0 else u0).tokenVersion, ?_, ?_⟩
  · rw [hu0]
    rfl
  · rw [← hv0]
    by_cases h : u0.id = i <;> simp [h, hv]

/-- VersionLe for pure user insertion. -/
theorem versionLe_append_users {d e : DB} (l : List User)
    (h : e.users = d.users ++ l) : VersionLe d e := by
  intro uid v hfind
  unfold tokenVersionOf findUserById at hfind ⊢
  rw [h, List.find?_append]
  obtain ⟨u0, hu0, hv0⟩ := Option.map_eq_some'.mp hfind
  rw [hu0]
  exact ⟨v, by simp [Option.or, hv0], le_refl v⟩

/-- sendMagicLinkEmail only touches the magic-link token table. -/
theorem users_sendMagicLinkEmail (d : DB) (uid n : Nat) (ip : String) (ok : Bool) :
    ((sendMagicLinkEmail d uid n ip ok).2).users = d.users := by
  cases ok <;> rfl

/-- The shared tail of requestMagicLink never touches the user table. -/
theorem users_requestMagicLinkAfterLock (d : DB) (uid : Nat) (b : Bool) (n : Nat) (ip : String) (ok : Bool) :
    ((requestMagicLinkAfterLock d uid b n ip ok).2).users = d.users := by
  cases ok <;> rfl

/-- loginPasswordPhase never decreases a stored tokenVersion. -/
theorem versionLe_loginPasswordPhase (d : DB) (user : User) (pw : String) (n : Nat) (ip : String) :
    VersionLe d (loginPasswordPhase d user pw n ip).db := by
  unfold loginPasswordPhase
  by_cases h : bcryptCompare pw user.password
  · rw [if_pos h]
    exact versionLe_updateUsers user.id _ rfl (fun u => rfl) (fun u => le_refl _)
  · rw [if_neg h]
    by_cases h5 : 5 ≤ user.failedLoginAttempts + 1
    · rw [if_pos h5]
      exact versionLe_updateUsers user.id _ rfl (fun u => rfl) (fun u => le_refl _)
    · rw [if_neg h5]
      exact versionLe_updateUsers user.id _ rfl (fun u => rfl) (fun u => le_refl _)

/-- loginUser never decreases a stored tokenVersion. -/
theorem versionLe_loginUser (d : DB) (e pw : String) (n : Nat) (ip : String) :
    VersionLe d (loginUser d e pw n ip).db := by
  unfold loginUser
  split
  · exact versionLe_of_users_eq rfl
  next user _ =>
    by_cases hv : user.emailVerified = false
    · rw [if_pos hv]
      exact versionLe_of_users_eq rfl
    · rw [if_neg hv]
      split
      next lockedUntil _ =>
        by_cases hn : n < lockedUntil
        · rw [if_pos hn]
          exact versionLe_of_users_eq rfl
        · rw [if_neg hn]
          exact versionLe_trans
            (b := appendAudit (updateUserById d user.id (fun u =>
              { u with failedLoginAttempts := 0, accountLockedUntil := none }))
              (mkAudit (some user.id) AuditAction.accountUnlocked))
            (versionLe_updateUsers user.id (fun u =>
              { u with failedLoginAttempts := 0, accountLockedUntil := none })
              rfl (fun u => rfl) (fun u => le_refl _))
            (versionLe_loginPasswordPhase _ user pw n ip)
      · exact versionLe_loginPasswordPhase _ user pw n ip

/-- registerUser never decreases a stored tokenVersion. -/
theorem versionLe_registerUser (d : DB) (e pw : String) (r : Role) :
    VersionLe d (registerUser d e pw r).2 := by
  unfold registerUser
  by_cases h : (findUserByEmail d e).isSome
  · rw [if_pos h]
    exact versionLe_of_users_eq rfl
  · rw [if_neg h]
    exact versionLe_append_users _ rfl

/-- rotateRefreshToken never touches the user table. -/
theorem users_rotateRefreshToken (d : DB) (t : Jwt) (n : Nat) :
    ((rotateRefreshToken d t n).2).users = d.users := by
  unfold rotateRefreshToken
  split
  · rfl
  · split
    · rfl
    · split <;> rfl

/-- logoutUser never touches the user table. -/
theorem users_logoutUser (d : DB) (t : Option Jwt) : (logoutUser d t).users = d.users := by
  unfold logoutUser
  split <;> rfl

/-- updateUserRole never decreases a stored tokenVersion. -/
theorem versionLe_updateUserRole (d : DB) (uid : Nat) (r : Role) :
    VersionLe d (updateUserRole d uid r) := by
  unfold updateUserRole
  split
  · exact versionLe_of_users_eq rfl
  · exact versionLe_updateUsers uid _ rfl (fun u => rfl) (fun u => le_refl _)

/-- sendPasswordResetEmail never touches the user table. -/
theorem users_sendPasswordResetEmail (d : DB) (e : String) (n : Nat) (ok : Bool) :
    ((sendPasswordResetEmail d e n ok).2).users = d.users := by
  unfold sendPasswordResetEmail
  split
  · rfl
  · by_cases h : ok
    · rw [if_pos h]
      rfl
    · rw [if_neg h]
      rfl

/-- resetPassword never decreases a stored tokenVersion (it increments the
reset user's). -/
theorem versionLe_resetPassword (d : DB) (tok npw : String) (n : Nat) :
    VersionLe d (resetPassword d tok npw n).db := by
  unfold resetPassword
  split
  · exact versionLe_of_users_eq rfl
  next row _ =>
    by_cases h1 : row.expiresAt < n
    · rw [if_pos h1]
      exact versionLe_of_users_eq rfl
    · rw [if_neg h1]
      by_cases h2 : row.used
      · rw [if_pos h2]
        exact versionLe_of_users_eq rfl
      · rw [if_neg h2]
        exact versionLe_updateUsers row.userId _ rfl (fun u => rfl)
          (fun u => Nat.le_succ u.tokenVersion)

/-- anonymizeUserData never decreases a stored tokenVersion. -/
theorem versionLe_anonymizeUserData (d : DB) (uid : Nat) :
    VersionLe d (anonymizeUserData d uid) := by
  unfold anonymizeUserData
  split
  · exact versionLe_of_users_eq rfl
  · exact versionLe_updateUsers uid _ rfl (fun u => rfl) (fun u => le_refl _)

/-- updateUserEmail never decreases a stored tokenVersion. -/
theorem versionLe_updateUserEmail (d : DB) (uid : Nat) (e : String) (n : Nat) (ok : Bool) :
    VersionLe d (updateUserEmail d uid e n ok).2 := by
  unfold updateUserEmail
  by_cases hc : (match findUserByEmail d e with
    | some existing => decide (existing.id ≠ uid)
    | none => false)
  · rw [if_pos hc]
    exact versionLe_of_users_eq rfl
  · rw [if_neg hc]
    split
    · exact versionLe_of_users_eq rfl
    · by_cases h : ok
      · rw [if_pos h]
        exact versionLe_updateUsers uid _ rfl (fun u => rfl) (fun u => le_refl _)
      · rw [if_neg h]
        exact versionLe_updateUsers uid _ rfl (fun u => rfl) (fun u => le_refl _)

/-- requestMagicLink never decreases a stored tokenVersion. -/
theorem versionLe_requestMagicLink (d : DB) (e : String) (n : Nat) (ip : String) (ok : Bool) :
    VersionLe d (requestMagicLink d e n ip ok).2 := by
  unfold requestMagicLink
  split
  next user _ =>
    unfold requestMagicLinkExisting
    split
    next lockedUntil _ =>
      by_cases hn : n < lockedUntil
      · rw [if_pos hn]
        exact versionLe_of_users_eq rfl
      · rw [if_neg hn]
        refine versionLe_updateUsers user.id (fun u =>
          { u with accountLockedUntil := none, failedLoginAttempts := 0 })
          ?_ (fun u => rfl) (fun u => le_refl _)
        exact (users_requestMagicLinkAfterLock _ _ _ _ _ _).trans rfl
    · exact versionLe_of_users_eq (users_requestMagicLinkAfterLock _ _ _ _ _ _)
  · unfold requestMagicLinkNewUser
    exact versionLe_append_users
      [{ id := d.nextUserId, email := e, password := Hash.bcryptRandom d.nextNonce,
         role := Role.user, emailVerified := false, failedLoginAttempts := 0,
         accountLockedUntil := none, tokenVersion := 0, lastLoginAt := none, lastLoginIp := none }]
      ((users_requestMagicLinkAfterLock _ _ _ _ _ _).trans rfl)

/-- verifyMagicLinkAndLogin never decreases a stored tokenVersion. -/
theorem versionLe_verifyMagicLink (d : DB) (tok : String) (n : Nat) (ip : String) :
    VersionLe d (verifyMagicLinkAndLogin d tok n ip).2 := by
  unfold verifyMagicLinkAndLogin
  split
  · exact versionLe_of_users_eq rfl
  next row _ =>
    by_cases h1 : row.used
    · rw [if_pos h1]
      exact versionLe_of_users_eq rfl
    · rw [if_neg h1]
      by_cases h2 : row.expiresAt < n
      · rw [if_pos h2]
        exact versionLe_of_users_eq rfl
      · rw [if_neg h2]
        split
        · exact versionLe_of_users_eq rfl
        next user _ =>
          split
          next lockedUntil _ =>
            by_cases h3 : n < lockedUntil
            · rw [if_pos h3]
              exact versionLe_of_users_eq rfl
            · rw [if_neg h3]
              exact versionLe_updateUsers user.id _ rfl (fun u => rfl) (fun u => le_refl _)
          · exact versionLe_updateUsers user.id _ rfl (fun u => rfl) (fun u => le_refl _)

/-- Every single operation respects the version order. -/
theorem versionLe_step (d : DB) (op : Op) : VersionLe d (step d op) := by
  cases op with
  | register e pw r => exact versionLe_registerUser d e pw r
  | login e pw n ip => exact versionLe_loginUser d e pw n ip
  | refresh t n => exact versionLe_of_users_eq (users_rotateRefreshToken d t n)
  | logout t => exact versionLe_of_users_eq (users_logoutUser d t)
  | changeRole uid r => exact versionLe_updateUserRole d uid r
  | resetRequest e n ok => exact versionLe_of_users_eq (users_sendPasswordResetEmail d e n ok)
  | resetApply t npw n => exact versionLe_resetPassword d t npw n
  | anonymize uid => exact versionLe_anonymizeUserData d uid
  | updateEmail uid e n ok => exact versionLe_updateUserEmail d uid e n ok
  | magicRequest e n ip ok => exact versionLe_requestMagicLink d e n ip ok
  | magicRedeem t n ip => exact versionLe_verifyMagicLink d t n ip

/-- Any sequence of operations respects the version order. -/
theorem versionLe_runOps (d : DB) (ops : List Op) : VersionLe d (runOps d ops) := by
  induction ops generalizing d with
  | nil => exact versionLe_of_users_eq rfl
  | cons op t ih => exact versionLe_trans (versionLe_step d op) (ih (step d op))

/-- On the success path, resetPassword replaces the refresh-token table with
the rows of other users. -/
theorem refreshTokens_resetPassword_success (db : DB) (tok npw : String) (n : Nat)
    (row : PasswordResetTokenRow)
    (hrow : db.passwordResetTokens.find? (fun r => decide (r.token = tok)) = some row)
    (h1 : ¬ row.expiresAt < n) (h2 : ¬ row.used = true) :
    (resetPassword db tok npw n).db.refreshTokens =
      db.refreshTokens.filter (fun r => !decide (r.userId = row.userId)) := by
  unfold resetPassword
  simp only [hrow]
  rw [if_neg h1, if_neg h2]
  rfl

/-! ## Claim C1 -/

/-- Claim C1 counterexample: resetPassword bumps the sample user's stored
tokenVersion to 1, yet the version-0 access token minted before the reset is
still accepted by the authenticate middleware (which produces no
TOKEN_INVALIDATED rejection and never loads the user). -/
theorem middleware_accepts_stale_version_cex :
    (resetPassword sampleDBReset "rt" "np" 1).outcome = Except.ok ()
    ∧ tokenVersionOf (resetPassword sampleDBReset "rt" "np" 1).db 1 = some 1
    ∧ sampleAccessToken.tokenVersion = 0
    ∧ authenticate sampleAccessToken 2 =
        Except.ok { userId := 1, role := Role.user, tokenVersion := 0 } := by
  exact ⟨rfl, by decide, rfl, rfl⟩

/-- Claim C1 amended: the middleware accepts a bearer token exactly when its
signature verifies under the access secret and its own exp has not passed;
it never loads the user or compares tokenVersion.  Pre-reset refresh tokens
are nevertheless rejected after resetPassword, with REFRESH_NOT_FOUND,
because the reset deletes every refresh row of the user. -/
theorem middleware_signature_expiry_only :
    (∀ (t : Jwt) (now : Nat),
      authenticate t now =
        (if t.secret = Secret.access ∧ now < t.exp
         then Except.ok { userId := t.userId, role := t.role, tokenVersion := t.tokenVersion }
         else Except.error AuthError.invalidOrExpiredToken))
    ∧ (∀ (db : DB) (tok npw : String) (n m : Nat) (t : Jwt) (row : PasswordResetTokenRow),
        db.passwordResetTokens.find? (fun r => decide (r.token = tok)) = some row →
        (resetPassword db tok npw n).outcome = Except.ok () →
        (∀ r ∈ db.refreshTokens, r.token = t → r.userId = row.userId) →
        (rotateRefreshToken (resetPassword db tok npw n).db t m).1 =
          Except.error RotateError.refreshNotFound) := by
  constructor
  · intro t now
    unfold authenticate verifyAccessToken
    by_cases h : t.secret = Secret.access ∧ now < t.exp
    · rw [if_pos h, if_pos h]
    · rw [if_neg h, if_neg h]
  · intro db tok npw n m t row hrow hok hmem
    by_cases h1 : row.expiresAt < n
    · exfalso
      unfold resetPassword at hok
      simp only [hrow] at hok
      rw [if_pos h1] at hok
      simp at hok
    · by_cases h2 : row.used = true
      · exfalso
        unfold resetPassword at hok
        simp only [hrow] at hok
        rw [if_neg h1, if_pos h2] at hok
        simp at hok
      · have hrt := refreshTokens_resetPassword_success db tok npw n row hrow h1 h2
        have hnone : findRefreshToken (resetPassword db tok npw n).db t = none := by
          unfold findRefreshToken
          rw [hrt, List.find?_eq_none]
          intro x hx
          simp only [decide_eq_true_eq]
          intro hxt
          obtain ⟨hxmem, hxpred⟩ := List.mem_filter.mp hx
          have hxu := hmem x hxmem hxt
          simp [hxu] at hxpred
        unfold rotateRefreshToken
        rw [hnone]

/-- Claim C1 witness: the amended statement instantiated on the sample
store. -/
theorem middleware_signature_expiry_only_witness :
    authenticate sampleAccessToken 2 = Except.ok { userId := 1, role := Role.user, tokenVersion := 0 }
    ∧ (rotateRefreshToken (resetPassword sampleDBResetRefresh "rt" "np" 1).db sampleRefreshToken 5).1 =
        Except.error RotateError.refreshNotFound := by
  constructor
  · rw [middleware_signature_expiry_only.1 sampleAccessToken 2]
    rfl
  · exact middleware_signature_expiry_only.2 sampleDBResetRefresh "rt" "np" 1 5 sampleRefreshToken
      { token := "rt", userId := 1, expiresAt := 100, used := false }
      (by decide) rfl (by decide)

/-! ## Claim C2 -/

/-- Claim C2 counterexample: a refresh row whose JWT is signed with an
unknown key and carries tokenVersion 0 while the user's stored tokenVersion
is 1 is still rotated successfully: the refresh path verifies neither the
signature nor the tokenVersion. -/
theorem refresh_skips_signature_and_version_cex :
    forgedRefreshToken.secret ≠ Secret.refresh
    ∧ forgedRefreshToken.tokenVersion = 0
    ∧ tokenVersionOf mismatchDB 1 = some 1
    ∧ (rotateRefreshToken mismatchDB forgedRefreshToken 5).1.isOk = true := by
  exact ⟨by decide, rfl, by decide, rfl⟩

/-- Claim C2 amended: rotateRefreshToken succeeds for every presented token
whose row exists and is unexpired and whose owning user exists — with no
constraint on the token's signature or embedded tokenVersion — and mints new
tokens from the user's current role and tokenVersion. -/
theorem refresh_checks_row_and_user_only
    (db : DB) (t : Jwt) (n : Nat) (found : RefreshTokenRow) (user : User)
    (hfound : findRefreshToken db t = some found)
    (hexp : ¬ found.expiresAt < n)
    (huser : findUserById db found.userId = some user) :
    (rotateRefreshToken db t n).1 =
      Except.ok { accessToken := signAccessToken found.userId user.role user.tokenVersion n,
                  refreshToken := signRefreshToken found.userId user.role user.tokenVersion n,
                  expiresAt := n + refreshExpiresMinutes, userId := found.userId } := by
  unfold rotateRefreshToken
  simp only [hfound]
  rw [if_neg hexp]
  simp only [huser]

/-- Claim C2 witness: the amended statement instantiated on the mismatch
store with the forged token. -/
theorem refresh_checks_row_and_user_only_witness :
    (rotateRefreshToken mismatchDB forgedRefreshToken 5).1 =
      Except.ok { accessToken := signAccessToken 1 Role.user 1 5,
                  refreshToken := signRefreshToken 1 Role.user 1 5,
                  expiresAt := 5 + refreshExpiresMinutes, userId := 1 } :=
  refresh_checks_row_and_user_only mismatchDB forgedRefreshToken 5
    { userId := 1, token := forgedRefreshToken, expiresAt := 100 }
    { sampleUser with tokenVersion := 1 }
    (by decide) (by decide) (by decide)

/-! ## Claim C3 -/

/-- Claim C3 (code bug): starting from the sample user's single active
session, a successful refresh leaves zero active sessions for the user and
no session row at all carries the newly issued refresh token — the rotation
deactivates the old session and only touches its activity timestamp instead
of creating or re-keying a session for the new token. -/
theorem refresh_rotation_leaves_no_active_session :
    (activeSessionsFor sessionDB 1).length = 1
    ∧ (rotateRefreshToken sessionDB sampleRefreshToken 5).1.isOk = true
    ∧ ((rotateRefreshToken sessionDB sampleRefreshToken 5).1.toOption.map
        (fun o => o.refreshToken)) = some (signRefreshToken 1 Role.user 0 5)
    ∧ (activeSessionsFor (rotateRefreshToken sessionDB sampleRefreshToken 5).2 1).length = 0
    ∧ (∀ s ∈ (rotateRefreshToken sessionDB sampleRefreshToken 5).2.sessions,
        s.refreshToken ≠ signRefreshToken 1 Role.user 0 5) := by
  refine ⟨by decide, rfl, by decide, by decide, by decide⟩

/-! ## Claim C5 -/

/-- Claim C5 counterexample: on the sample store the reset succeeds, but its
store trace is four separate top-level mutations with no transaction block —
the effects are not applied within a single transaction. -/
theorem resetPassword_not_single_transaction_cex :
    (resetPassword sampleDBReset "rt" "np" 1).outcome = Except.ok ()
    ∧ specSingleTransaction (resetPassword sampleDBReset "rt" "np" 1).trace = false := by
  exact ⟨rfl, rfl⟩

/-- Claim C5 amended: for a valid, unused, unexpired reset token,
resetPassword sets the user's hash to the bcrypt hash of the new password,
resets failedLoginAttempts, clears accountLockedUntil, increments
tokenVersion by exactly 1, marks the token used, deletes all of the user's
refresh rows and deactivates all of the user's sessions — but as a sequence
of separate store operations, not within a single transaction. -/
theorem resetPassword_effects_sequential
    (db : DB) (tok npw : String) (n : Nat) (row : PasswordResetTokenRow) (u : User)
    (hrow : db.passwordResetTokens.find? (fun r => decide (r.token = tok)) = some row)
    (hexp : ¬ row.expiresAt < n)
    (hused : ¬ row.used = true)
    (huser : findUserById db row.userId = some u) :
    (resetPassword db tok npw n).outcome = Except.ok ()
    ∧ findUserById (resetPassword db tok npw n).db row.userId =
        some { u with password := Hash.bcrypt npw, failedLoginAttempts := 0,
                      accountLockedUntil := none, tokenVersion := u.tokenVersion + 1 }
    ∧ (∀ rr ∈ (resetPassword db tok npw n).db.passwordResetTokens, rr.token = tok → rr.used = true)
    ∧ (resetPassword db tok npw n).db.refreshTokens =
        db.refreshTokens.filter (fun rr => !decide (rr.userId = row.userId))
    ∧ (∀ s ∈ (resetPassword db tok npw n).db.sessions, s.userId = row.userId → s.isActive = false)
    ∧ (resetPassword db tok npw n).trace =
        [StoreOp.findResetToken tok, StoreOp.updateUserRow row.userId, StoreOp.markResetTokenUsed tok,
         StoreOp.deleteUserRefreshTokens row.userId, StoreOp.deactivateUserSessions row.userId]
    ∧ specSingleTransaction (resetPassword db tok npw n).trace = false := by
  refine ⟨?_, ?_, ?_, ?_, ?_, ?_, ?_⟩
  · unfold resetPassword
    simp only [hrow]
    rw [if_neg hexp, if_neg hused]
  · unfold resetPassword
    simp only [hrow]
    rw [if_neg hexp, if_neg hused]
    exact findUserById_update_found (d := db)
      (f := fun x => { x with password := Hash.bcrypt npw, failedLoginAttempts := 0,
                              accountLockedUntil := none, tokenVersion := x.tokenVersion + 1 })
      huser (fun x => rfl)
  · unfold resetPassword
    simp only [hrow]
    rw [if_neg hexp, if_neg hused]
    intro rr hrr htok
    obtain ⟨r0, _, hmap⟩ := List.mem_map.mp
      (show rr ∈ db.passwordResetTokens.map
        (fun r => if r.token = tok then { r with used := true } else r) from hrr)
    by_cases hr0t : r0.token = tok
    · rw [← hmap, if_pos hr0t]
    · rw [← hmap, if_neg hr0t] at htok
      exact absurd htok hr0t
  · unfold resetPassword
    simp only [hrow]
    rw [if_neg hexp, if_neg hused]
    rfl
  · unfold resetPassword
    simp only [hrow]
    rw [if_neg hexp, if_neg hused]
    intro s hs hsid
    obtain ⟨s0, _, hmap⟩ := List.mem_map.mp
      (show s ∈ db.sessions.map
        (fun x => if x.userId = row.userId then { x with isActive := false } else x) from hs)
    by_cases hs0 : s0.userId = row.userId
    · rw [← hmap, if_pos hs0]
    · rw [← hmap, if_neg hs0] at hsid
      exact absurd hsid hs0
  · unfold resetPassword
    simp only [hrow]
    rw [if_neg hexp, if_neg hused]
  · unfold resetPassword
    simp only [hrow]
    rw [if_neg hexp, if_neg hused]
    rfl

/-- Claim C5 witness: the amended statement instantiated on the sample store
with a reset row and a refresh row. -/
theorem resetPassword_effects_sequential_witness :
    (resetPassword sampleDBResetRefresh "rt" "np" 1).outcome = Except.ok ()
    ∧ specSingleTransaction (resetPassword sampleDBResetRefresh "rt" "np" 1).trace = false := by
  have h := resetPassword_effects_sequential sampleDBResetRefresh "rt" "np" 1
    { token := "rt", userId := 1, expiresAt := 100, used := false } sampleUser
    (by decide) (by decide) (by decide) (by decide)
  exact ⟨h.1, h.2.2.2.2.2.2⟩

/-! ## Claim C7 -/

/-- Claim C7 (code bug): the password-reset request returns the identical
generic message whether or not the address exists, but the magic-link
request returns a different message when it silently created the account
than when the account already existed, despite the source's own
return-generic-message comment. -/
theorem magic_link_message_reveals_new_account :
    (requestMagicLink sampleDB "x@x" 0 "ip" true).1 = Except.ok magicMsgNew
    ∧ (requestMagicLink sampleDB "a@b" 0 "ip" true).1 = Except.ok magicMsgExisting
    ∧ magicMsgNew ≠ magicMsgExisting
    ∧ (sendPasswordResetEmail sampleDB "x@x" 0 true).1 = Except.ok resetRequestMsg
    ∧ (sendPasswordResetEmail sampleDB "a@b" 0 true).1 = Except.ok resetRequestMsg := by
  refine ⟨rfl, rfl, by decide, rfl, rfl⟩

/-! ## Claim C8 -/

/-- Claim C8 counterexample: when the verification dispatch fails,
updateUserEmail surfaces the failure and the database change remains, but
the EMAIL_UPDATED audit row has already been written and no
EMAIL_UPDATE_FAILED row exists. -/
theorem updateEmail_audit_on_failure_cex :
    (updateUserEmail sampleDB 1 "n@x" 0 false).1 = Except.error UpdateEmailError.sendVerificationFailed
    ∧ (findUserById (updateUserEmail sampleDB 1 "n@x" 0 false).2 1).map
        (fun u => (u.email, u.emailVerified)) = some ("n@x", false)
    ∧ ((updateUserEmail sampleDB 1 "n@x" 0 false).2.auditLogs.countP
        (fun a => decide (a.action = AuditAction.emailUpdated))) = 1
    ∧ ((updateUserEmail sampleDB 1 "n@x" 0 false).2.auditLogs.countP
        (fun a => decide (a.action = AuditAction.emailUpdateFailed))) = 0 := by
  refine ⟨rfl, by decide, by decide, by decide⟩

/-- Claim C8 amended: whenever the uniqueness check passes and the user
exists, updateUserEmail applies the database change (email replaced,
emailVerified cleared) and writes the EMAIL_UPDATED audit row with the old
and new addresses BEFORE attempting the dispatch; on dispatch failure it
surfaces the failure while the change and that audit row remain, and it
appends the same single EMAIL_UPDATED row on success — an
EMAIL_UPDATE_FAILED row is emitted on neither path. -/
theorem updateEmail_audit_before_dispatch
    (db : DB) (uid : Nat) (e : String) (n : Nat) (cur : User)
    (hc : ∀ ex, findUserByEmail db e = some ex → ex.id = uid)
    (hcur : findUserById db uid = some cur) :
    ((updateUserEmail db uid e n false).1 = Except.error UpdateEmailError.sendVerificationFailed
     ∧ findUserById (updateUserEmail db uid e n false).2 uid =
         some { cur with email := e, emailVerified := false }
     ∧ (updateUserEmail db uid e n false).2.auditLogs =
         db.auditLogs ++ [{ userId := some uid, action := AuditAction.emailUpdated, success := true,
                            meta := [("oldEmail", cur.email), ("newEmail", e)] }])
    ∧ (updateUserEmail db uid e n true).2.auditLogs =
        db.auditLogs ++ [{ userId := some uid, action := AuditAction.emailUpdated, success := true,
                           meta := [("oldEmail", cur.email), ("newEmail", e)] }] := by
  have hcurid : cur.id = uid := by
    have h := List.find?_some hcur
    exact of_decide_eq_true h
  have hcf : (match findUserByEmail db e with
      | some existing => decide (existing.id ≠ uid)
      | none => false) = false := by
    cases hf : findUserByEmail db e with
    | none => rfl
    | some ex => simp [hc ex hf]
  have hff : ¬ (false = true) := by decide
  refine ⟨⟨?_, ?_, ?_⟩, ?_⟩
  · unfold updateUserEmail
    simp only [hcf, hcur]
    rw [if_neg hff, if_neg hff]
  · unfold updateUserEmail
    simp only [hcf, hcur]
    rw [if_neg hff, if_neg hff]
    exact findUserById_update_found
      (d := { db with verificationTokens := db.verificationTokens.filter (fun r => !decide (r.userId = uid)) })
      (f := fun x => { x with email := e, emailVerified := false })
      hcur (fun x => rfl)
  · unfold updateUserEmail
    simp only [hcf, hcur]
    rw [if_neg hff, if_neg hff]
    rfl
  · unfold updateUserEmail
    simp only [hcf, hcur]
    rw [if_neg hff, if_pos trivial]
    rfl

/-- Claim C8 witness: the amended statement instantiated on the sample
store. -/
theorem updateEmail_audit_before_dispatch_witness :
    (updateUserEmail sampleDB 1 "n@x" 0 false).1 = Except.error UpdateEmailError.sendVerificationFailed
    ∧ (updateUserEmail sampleDB 1 "n@x" 0 true).2.auditLogs =
        sampleDB.auditLogs ++ [{ userId := some 1, action := AuditAction.emailUpdated, success := true,
                                 meta := [("oldEmail", "a@b"), ("newEmail", "n@x")] }] := by
  have h := updateEmail_audit_before_dispatch sampleDB 1 "n@x" 0 sampleUser
    (by decide) (by decide)
  exact ⟨h.1.1, h.2⟩

/-! ## Claim C4 -/

/-- The explicit shape of a successful rotation. -/
theorem rotate_success_shape (d : DB) (t : Jwt) (n : Nat) (found : RefreshTokenRow) (user : User)
    (hfound : findRefreshToken d t = some found)
    (hexp : ¬ found.expiresAt < n)
    (huser : findUserById d found.userId = some user) :
    rotateRefreshToken d t n =
      (Except.ok { accessToken := signAccessToken found.userId user.role user.tokenVersion n,
                   refreshToken := signRefreshToken found.userId user.role user.tokenVersion n,
                   expiresAt := n + refreshExpiresMinutes, userId := found.userId },
       updateSessionActivity (saveRefreshToken (appendAudit (deactivateSession (deleteRefreshToken d t) t)
         (mkAudit (some found.userId) AuditAction.tokenRefreshed)) found.userId
         (signRefreshToken found.userId user.role user.tokenVersion n) (n + refreshExpiresMinutes)) t n) := by
  unfold rotateRefreshToken
  simp only [hfound]
  rw [if_neg hexp]
  simp only [huser]

/-- Claim C4: once refresh(t) succeeds and returns t-prime, replaying t fails
with REFRESH_NOT_FOUND (the old row was deleted during rotation), and
refresh(t-prime) succeeds exactly once: it succeeds while t-prime is
unexpired and a replay of t-prime afterwards fails with REFRESH_NOT_FOUND.
The freshness hypothesis — every stored row was minted strictly before the
rotation instant, and the instants increase — reflects that jwt.sign embeds
the issue time iat, so tokens minted at different instants are different
strings. -/
theorem refresh_exclusivity
    (db0 : DB) (t : Jwt) (n2 n3 m m' : Nat) (out : RotateOk) (db1 : DB)
    (h1 : rotateRefreshToken db0 t n2 = (Except.ok out, db1))
    (hiat : ∀ r ∈ db0.refreshTokens, r.token.iat < n2)
    (h23 : n2 < n3)
    (hexp3 : n3 ≤ out.expiresAt) :
    (rotateRefreshToken db1 t m).1 = Except.error RotateError.refreshNotFound
    ∧ (rotateRefreshToken db1 out.refreshToken n3).1.isOk = true
    ∧ (rotateRefreshToken (rotateRefreshToken db1 out.refreshToken n3).2 out.refreshToken m').1 =
        Except.error RotateError.refreshNotFound := by
  rcases hfound : findRefreshToken db0 t with _ | found
  · unfold rotateRefreshToken at h1
    simp only [hfound] at h1
    simp at h1
  by_cases hex : found.expiresAt < n2
  · unfold rotateRefreshToken at h1
    simp only [hfound] at h1
    rw [if_pos hex] at h1
    simp at h1
  rcases huser : findUserById db0 found.userId with _ | user
  · unfold rotateRefreshToken at h1
    simp only [hfound] at h1
    rw [if_neg hex] at h1
    simp only [huser] at h1
    simp at h1
  have hshape := rotate_success_shape db0 t n2 found user hfound hex huser
  rw [hshape] at h1
  have hout : out = { accessToken := signAccessToken found.userId user.role user.tokenVersion n2,
                      refreshToken := signRefreshToken found.userId user.role user.tokenVersion n2,
                      expiresAt := n2 + refreshExpiresMinutes, userId := found.userId } := by
    have h := congrArg Prod.fst h1
    simpa using h.symm
  have hrt : db1.refreshTokens =
      (db0.refreshTokens.filter (fun r => !decide (r.token = t))) ++
      [{ userId := found.userId, token := signRefreshToken found.userId user.role user.tokenVersion n2,
         expiresAt := n2 + refreshExpiresMinutes }] := by
    have h := congrArg (fun p => p.2.refreshTokens) h1
    exact h.symm
  have husers1 : db1.users = db0.users := by
    have h := congrArg (fun p => p.2.users) h1
    exact h.symm
  have hfmem : found ∈ db0.refreshTokens := List.mem_of_find?_eq_some hfound
  have hft : found.token = t := by
    have hp := List.find?_some (show db0.refreshTokens.find? (fun r => decide (r.token = t)) = some found from hfound)
    simpa using hp
  have htiat : t.iat < n2 := by
    rw [← hft]
    exact hiat found hfmem
  have hoR : out.refreshToken = signRefreshToken found.userId user.role user.tokenVersion n2 := by
    rw [hout]
  have hoE : out.expiresAt = n2 + refreshExpiresMinutes := by
    rw [hout]
  have hexp3' : n3 ≤ n2 + refreshExpiresMinutes := by
    rw [← hoE]
    exact hexp3
  have hnone1 : findRefreshToken db1 t = none := by
    unfold findRefreshToken
    rw [hrt, List.find?_eq_none]
    intro x hx
    simp only [decide_eq_true_eq]
    intro hxt
    rcases List.mem_append.mp hx with hxl | hxr
    · obtain ⟨_, hxp⟩ := List.mem_filter.mp hxl
      simp [hxt] at hxp
    · rw [List.mem_singleton] at hxr
      subst hxr
      have hti : t.iat = n2 := by
        rw [← hxt]
        rfl
      omega
  have hfound2 : findRefreshToken db1 out.refreshToken =
      some { userId := found.userId, token := signRefreshToken found.userId user.role user.tokenVersion n2,
             expiresAt := n2 + refreshExpiresMinutes } := by
    unfold findRefreshToken
    rw [hrt, hoR, List.find?_append]
    have hl : (db0.refreshTokens.filter (fun r => !decide (r.token = t))).find?
        (fun r => decide (r.token = signRefreshToken found.userId user.role user.tokenVersion n2)) = none := by
      rw [List.find?_eq_none]
      intro x hx
      simp only [decide_eq_true_eq]
      intro hxt
      have hxi := hiat x (List.mem_filter.mp hx).1
      rw [hxt] at hxi
      exact absurd hxi (lt_irrefl n2)
    rw [hl]
    simp [List.find?]
  have hnex : ¬ n2 + refreshExpiresMinutes < n3 := by omega
  have huser2 : findUserById db1 found.userId = some user := by
    rw [findUserById_congr husers1]
    exact huser
  have hrot2 := rotate_success_shape db1 out.refreshToken n3
    { userId := found.userId, token := signRefreshToken found.userId user.role user.tokenVersion n2,
      expiresAt := n2 + refreshExpiresMinutes } user hfound2 hnex huser2
  refine ⟨?_, ?_, ?_⟩
  · unfold rotateRefreshToken
    rw [hnone1]
  · rw [hrot2]
    rfl
  · rw [hrot2]
    have hnone2 : findRefreshToken
        (updateSessionActivity (saveRefreshToken (appendAudit (deactivateSession
          (deleteRefreshToken db1 out.refreshToken) out.refreshToken)
          (mkAudit (some found.userId) AuditAction.tokenRefreshed)) found.userId
          (signRefreshToken found.userId user.role user.tokenVersion n3) (n3 + refreshExpiresMinutes))
          out.refreshToken n3)
        out.refreshToken = none := by
      show List.find? (fun r : RefreshTokenRow => decide (r.token = out.refreshToken))
        (List.filter (fun r : RefreshTokenRow => !decide (r.token = out.refreshToken)) db1.refreshTokens ++
          [({ userId := found.userId, token := signRefreshToken found.userId user.role user.tokenVersion n3,
              expiresAt := n3 + refreshExpiresMinutes } : RefreshTokenRow)]) = none
      rw [List.find?_eq_none]
      intro x hx
      simp only [decide_eq_true_eq]
      intro hxt
      rcases List.mem_append.mp hx with hxl | hxr
      · obtain ⟨_, hxp⟩ := List.mem_filter.mp hxl
        simp [hxt] at hxp
      · rw [List.mem_singleton] at hxr
        subst hxr
        have hx' : signRefreshToken found.userId user.role user.tokenVersion n3 = out.refreshToken := hxt
        rw [hoR] at hx'
        have h32 : n3 = n2 := congrArg Jwt.iat hx'
        omega
    unfold rotateRefreshToken
    rw [hnone2]

/-- Claim C4 witness: the exclusivity statement instantiated on the sample
session store. -/
theorem refresh_exclusivity_witness :
    (rotateRefreshToken (rotateRefreshToken sessionDB sampleRefreshToken 5).2 sampleRefreshToken 7).1 =
      Except.error RotateError.refreshNotFound
    ∧ (rotateRefreshToken (rotateRefreshToken sessionDB sampleRefreshToken 5).2
        (signRefreshToken 1 Role.user 0 5) 6).1.isOk = true
    ∧ (rotateRefreshToken (rotateRefreshToken (rotateRefreshToken sessionDB sampleRefreshToken 5).2
        (signRefreshToken 1 Role.user 0 5) 6).2 (signRefreshToken 1 Role.user 0 5) 8).1 =
        Except.error RotateError.refreshNotFound :=
  refresh_exclusivity sessionDB sampleRefreshToken 5 6 7 8
    { accessToken := signAccessToken 1 Role.user 0 5,
      refreshToken := signRefreshToken 1 Role.user 0 5,
      expiresAt := 5 + refreshExpiresMinutes, userId := 1 }
    (rotateRefreshToken sessionDB sampleRefreshToken 5).2
    rfl (by decide) (by decide) (by decide)

/-! ## Claim C6 -/

/-- One wrong-password login below the lock threshold: the attempt counter is
written back incremented and the call fails with INVALID_PASSWORD. -/
theorem loginUser_wrong_below (d : DB) (e w : String) (n : Nat) (ip : String) (u : User)
    (hfind : findUserByEmail d e = some u)
    (hver : u.emailVerified = true)
    (hlock : u.accountLockedUntil = none)
    (hcmp : bcryptCompare w u.password = false)
    (hbelow : ¬ 5 ≤ u.failedLoginAttempts + 1) :
    loginUser d e w n ip =
      { outcome := Except.error LoginError.invalidPassword,
        db := appendAudit (updateUserById d u.id
          (fun x => { x with failedLoginAttempts := u.failedLoginAttempts + 1 }))
          (mkAuditFail (some u.id) AuditAction.loginFailed),
        bcryptChecked := true } := by
  unfold loginUser
  simp only [hfind]
  rw [if_neg (by simp [hver])]
  simp only [hlock]
  unfold loginPasswordPhase
  rw [if_neg (by simp [hcmp]), if_neg hbelow]

/-- The wrong-password login that reaches the threshold: the account lock is
set to now + 30 minutes and the call fails with ACCOUNT_LOCKED. -/
theorem loginUser_lock_at_threshold (d : DB) (e w : String) (n : Nat) (ip : String) (u : User)
    (hfind : findUserByEmail d e = some u)
    (hver : u.emailVerified = true)
    (hlock : u.accountLockedUntil = none)
    (hcmp : bcryptCompare w u.password = false)
    (hreach : 5 ≤ u.failedLoginAttempts + 1) :
    loginUser d e w n ip =
      { outcome := Except.error (LoginError.accountLocked (n + lockDurationMinutes)),
        db := appendAudit (updateUserById d u.id
          (fun x => { x with failedLoginAttempts := u.failedLoginAttempts + 1,
                             accountLockedUntil := some (n + lockDurationMinutes) }))
          (mkAudit (some u.id) AuditAction.accountLocked),
        bcryptChecked := true } := by
  unfold loginUser
  simp only [hfind]
  rw [if_neg (by simp [hver])]
  simp only [hlock]
  unfold loginPasswordPhase
  rw [if_neg (by simp [hcmp]), if_pos hreach]

/-- A login attempt against a currently locked account fails from the lock
check, before the password is ever compared. -/
theorem loginUser_while_locked (d : DB) (e p : String) (n : Nat) (ip : String) (u : User) (L : Nat)
    (hfind : findUserByEmail d e = some u)
    (hver : u.emailVerified = true)
    (hlock : u.accountLockedUntil = some L)
    (hn : n < L) :
    loginUser d e p n ip =
      { outcome := Except.error (LoginError.accountLocked L),
        db := appendAudit d (mkAuditFail (some u.id) AuditAction.loginFailed),
        bcryptChecked := false } := by
  unfold loginUser
  simp only [hfind]
  rw [if_neg (by simp [hver])]
  simp only [hlock]
  rw [if_pos hn]

/-- One wrong-password login below the threshold, packaged with the state the
next lookup observes. -/
theorem loginUser_wrong_step (d : DB) (e w : String) (n : Nat) (ip : String) (u : User)
    (hfind : findUserByEmail d e = some u)
    (hver : u.emailVerified = true)
    (hlock : u.accountLockedUntil = none)
    (hcmp : bcryptCompare w u.password = false)
    (hbelow : ¬ 5 ≤ u.failedLoginAttempts + 1) :
    (loginUser d e w n ip).outcome = Except.error LoginError.invalidPassword
    ∧ findUserByEmail (loginUser d e w n ip).db e =
        some { u with failedLoginAttempts := u.failedLoginAttempts + 1 } := by
  have hrec := loginUser_wrong_below d e w n ip u hfind hver hlock hcmp hbelow
  refine ⟨by rw [hrec], ?_⟩
  have hfb : findUserByEmail (loginUser d e w n ip).db e =
      (findUserByEmail d e).map (fun x => if x.id = u.id
        then { x with failedLoginAttempts := u.failedLoginAttempts + 1 } else x) := by
    rw [hrec]
    exact findUserByEmail_updateUserById d u.id _ e (fun x => rfl)
  rw [hfind] at hfb
  simpa using hfb

/-- The fifth wrong-password login, packaged with the state the next lookup
observes. -/
theorem loginUser_lock_step (d : DB) (e w : String) (n : Nat) (ip : String) (u : User)
    (hfind : findUserByEmail d e = some u)
    (hver : u.emailVerified = true)
    (hlock : u.accountLockedUntil = none)
    (hcmp : bcryptCompare w u.password = false)
    (hreach : 5 ≤ u.failedLoginAttempts + 1) :
    (loginUser d e w n ip).outcome = Except.error (LoginError.accountLocked (n + lockDurationMinutes))
    ∧ findUserByEmail (loginUser d e w n ip).db e =
        some { u with failedLoginAttempts := u.failedLoginAttempts + 1,
                      accountLockedUntil := some (n + lockDurationMinutes) } := by
  have hrec := loginUser_lock_at_threshold d e w n ip u hfind hver hlock hcmp hreach
  refine ⟨by rw [hrec], ?_⟩
  have hfb : findUserByEmail (loginUser d e w n ip).db e =
      (findUserByEmail d e).map (fun x => if x.id = u.id
        then { x with failedLoginAttempts := u.failedLoginAttempts + 1,
                      accountLockedUntil := some (n + lockDurationMinutes) } else x) := by
    rw [hrec]
    exact findUserByEmail_updateUserById d u.id _ e (fun x => rfl)
  rw [hfind] at hfb
  simpa using hfb

/-- Claim C6: for an email-verified user with a clean counter and no lock,
five consecutive wrong-password logins leave accountLockedUntil exactly 30
minutes past the fifth call (hence at least 30 minutes in the future at that
moment), and a sixth call with any password — the correct one included —
returns ACCOUNT_LOCKED from the lock check with bcrypt never consulted. -/
theorem lockout_after_five_failures
    (db0 : DB) (e w : String) (ip : String) (u : User)
    (n1 n2 n3 n4 n5 n6 : Nat) (p6 : String)
    (hfind : findUserByEmail db0 e = some u)
    (hver : u.emailVerified = true)
    (hlock : u.accountLockedUntil = none)
    (hatt : u.failedLoginAttempts = 0)
    (hcmp : bcryptCompare w u.password = false)
    (hn6 : n6 < n5 + lockDurationMinutes) :
    let d5 := runOps db0 [Op.login e w n1 ip, Op.login e w n2 ip, Op.login e w n3 ip,
                          Op.login e w n4 ip, Op.login e w n5 ip]
    ∃ u5 : User,
      findUserByEmail d5 e = some u5
      ∧ u5.accountLockedUntil = some (n5 + lockDurationMinutes)
      ∧ n5 + 30 ≤ n5 + lockDurationMinutes
      ∧ (loginUser d5 e p6 n6 ip).outcome = Except.error (LoginError.accountLocked (n5 + lockDurationMinutes))
      ∧ (loginUser d5 e p6 n6 ip).bcryptChecked = false := by
  obtain ⟨ho1, hf1⟩ := loginUser_wrong_step db0 e w n1 ip u hfind hver hlock hcmp (by omega)
  obtain ⟨ho2, hf2⟩ := loginUser_wrong_step _ e w n2 ip _ hf1 hver hlock hcmp
    (by show ¬ 5 ≤ u.failedLoginAttempts + 1 + 1; omega)
  obtain ⟨ho3, hf3⟩ := loginUser_wrong_step _ e w n3 ip _ hf2 hver hlock hcmp
    (by show ¬ 5 ≤ u.failedLoginAttempts + 1 + 1 + 1; omega)
  obtain ⟨ho4, hf4⟩ := loginUser_wrong_step _ e w n4 ip _ hf3 hver hlock hcmp
    (by show ¬ 5 ≤ u.failedLoginAttempts + 1 + 1 + 1 + 1; omega)
  obtain ⟨ho5, hf5⟩ := loginUser_lock_step _ e w n5 ip _ hf4 hver hlock hcmp
    (by show 5 ≤ u.failedLoginAttempts + 1 + 1 + 1 + 1 + 1; omega)
  have h6 := loginUser_while_locked _ e p6 n6 ip _ (n5 + lockDurationMinutes) hf5 hver rfl hn6
  exact ⟨_, hf5, rfl, le_refl _,
    (congrArg LoginResult.outcome h6).trans rfl,
    (congrArg LoginResult.bcryptChecked h6).trans rfl⟩

/-- Claim C6 witness: the lockout statement instantiated on the sample
store, with the wrong password x and the correct password pw on the sixth
call. -/
theorem lockout_after_five_failures_witness :
    ∃ u5 : User,
      findUserByEmail (runOps sampleDB [Op.login "a@b" "x" 1 "ip", Op.login "a@b" "x" 2 "ip",
        Op.login "a@b" "x" 3 "ip", Op.login "a@b" "x" 4 "ip", Op.login "a@b" "x" 5 "ip"]) "a@b" = some u5
      ∧ u5.accountLockedUntil = some (5 + lockDurationMinutes)
      ∧ 5 + 30 ≤ 5 + lockDurationMinutes
      ∧ (loginUser (runOps sampleDB [Op.login "a@b" "x" 1 "ip", Op.login "a@b" "x" 2 "ip",
          Op.login "a@b" "x" 3 "ip", Op.login "a@b" "x" 4 "ip", Op.login "a@b" "x" 5 "ip"]) "a@b" "pw" 6 "ip").outcome =
          Except.error (LoginError.accountLocked (5 + lockDurationMinutes))
      ∧ (loginUser (runOps sampleDB [Op.login "a@b" "x" 1 "ip", Op.login "a@b" "x" 2 "ip",
          Op.login "a@b" "x" 3 "ip", Op.login "a@b" "x" 4 "ip", Op.login "a@b" "x" 5 "ip"]) "a@b" "pw" 6 "ip").bcryptChecked = false :=
  lockout_after_five_failures sampleDB "a@b" "x" "ip" sampleUser 1 2 3 4 5 6 "pw"
    (by decide) rfl rfl rfl (by decide) (by decide)

/-! ## Claim C10 -/

/-- Claim C10: when magic-link redemption meets a valid, unused, unexpired
token whose owner is currently locked, it fails with the locked error
without marking the token used and without mutating any user field, and the
very same token can still be redeemed successfully once the lock has passed
(its own expiry permitting). -/
theorem magic_link_locked_then_retry
    (db : DB) (tok : String) (n1 n2 : Nat) (ip1 ip2 : String)
    (row : MagicLinkTokenRow) (u : User) (L : Nat)
    (hrow : db.magicLinkTokens.find? (fun r => decide (r.token = tok)) = some row)
    (hused : row.used = false)
    (hexp1 : ¬ row.expiresAt < n1)
    (huser : findUserById db row.userId = some u)
    (hL : u.accountLockedUntil = some L)
    (hn1 : n1 < L)
    (hn2 : ¬ n2 < L)
    (hexp2 : ¬ row.expiresAt < n2) :
    (verifyMagicLinkAndLogin db tok n1 ip1).1 = Except.error (MagicVerifyError.accountLockedTryLater L)
    ∧ (verifyMagicLinkAndLogin db tok n1 ip1).2.magicLinkTokens = db.magicLinkTokens
    ∧ (verifyMagicLinkAndLogin db tok n1 ip1).2.users = db.users
    ∧ (verifyMagicLinkAndLogin (verifyMagicLinkAndLogin db tok n1 ip1).2 tok n2 ip2).1.isOk = true := by
  have hred : verifyMagicLinkAndLogin db tok n1 ip1 =
      (Except.error (MagicVerifyError.accountLockedTryLater L),
       appendAudit db (mkAuditFail (some u.id) AuditAction.magicLinkFailed)) := by
    unfold verifyMagicLinkAndLogin
    simp only [hrow]
    rw [if_neg (show ¬ row.used = true by simp [hused])]
    rw [if_neg hexp1]
    simp only [huser, hL]
    rw [if_pos hn1]
  refine ⟨by rw [hred], by rw [hred]; rfl, by rw [hred]; rfl, ?_⟩
  rw [hred]
  have hrow2 : ((appendAudit db (mkAuditFail (some u.id) AuditAction.magicLinkFailed)).magicLinkTokens.find?
      (fun r => decide (r.token = tok))) = some row := hrow
  have huser2 : findUserById (appendAudit db (mkAuditFail (some u.id) AuditAction.magicLinkFailed)) row.userId = some u := huser
  unfold verifyMagicLinkAndLogin
  simp only [hrow2]
  rw [if_neg (show ¬ row.used = true by simp [hused])]
  rw [if_neg hexp2]
  simp only [huser2, hL]
  rw [if_neg hn2]
  rfl

/-! ## Claim C9 -/

/-- Claim C9: along every sequence of the modelled operations, a user's
stored tokenVersion never decreases, and registration initializes it to 0;
the only mutation performed anywhere is the increment inside
resetPassword. -/
theorem tokenVersion_monotone :
    (∀ (db : DB) (ops : List Op) (uid v w : Nat),
        tokenVersionOf db uid = some v → tokenVersionOf (runOps db ops) uid = some w → v ≤ w)
    ∧ (∀ (db : DB) (e pw : String) (r : Role) (u : User) (d2 : DB),
        registerUser db e pw r = (Except.ok u, d2) → u.tokenVersion = 0) := by
  constructor
  · intro db ops uid v w hv hw
    obtain ⟨v2, hv2, hle⟩ := versionLe_runOps db ops uid v hv
    rw [hw] at hv2
    have hv2' : w = v2 := Option.some.inj hv2
    rw [hv2']
    exact hle
  · intro db e pw r u d2 h
    unfold registerUser at h
    by_cases hex : (findUserByEmail db e).isSome
    · rw [if_pos hex] at h
      simp at h
    · rw [if_neg hex] at h
      have h2 : ({ id := db.nextUserId, email := e, password := Hash.bcrypt pw, role := r,
                   emailVerified := false, failedLoginAttempts := 0, accountLockedUntil := none,
                   tokenVersion := 0, lastLoginAt := none, lastLoginIp := none } : User) = u := by
        have hfst := congrArg Prod.fst h
        simpa using hfst
      rw [← h2]

/-- Claim C9 witness: the monotonicity statement instantiated on a password
reset (tokenVersion 0 to 1) and the register-initialization statement
instantiated on the sample store. -/
theorem tokenVersion_monotone_witness :
    (0 : Nat) ≤ 1 ∧ newSampleUser.tokenVersion = 0 :=
  ⟨tokenVersion_monotone.1 sampleDBReset [Op.resetApply "rt" "np" 1] 1 0 1 (by decide) (by decide),
   tokenVersion_monotone.2 sampleDB "c@d" "pw" Role.user newSampleUser
     (registerUser sampleDB "c@d" "pw" Role.user).2 rfl⟩

/-- Claim C10 witness: the theorem instantiated on the locked sample
store. -/
theorem magic_link_locked_then_retry_witness :
    (verifyMagicLinkAndLogin lockedMagicDB "ml" 10 "ip").1 =
      Except.error (MagicVerifyError.accountLockedTryLater 50)
    ∧ (verifyMagicLinkAndLogin (verifyMagicLinkAndLogin lockedMagicDB "ml" 10 "ip").2 "ml" 60 "ip2").1.isOk = true := by
  have h := magic_link_locked_then_retry lockedMagicDB "ml" 10 60 "ip" "ip2"
    { token := "ml", userId := 1, expiresAt := 100, used := false, usedAt := none, ipAddress := none }
    { sampleUser with accountLockedUntil := some 50 } 50
    (by decide) rfl (by decide) (by decide) rfl (by decide) (by decide) (by decide)
  exact ⟨h.1, h.2.2.2⟩

end AuthMS
